import Mathlib

/-!
# Verification of the emotional-decoration text-analysis core

Shallow embedding of the repository's analysis pipeline:
* `src/analyzers/emotion_detector.py` (`EmotionDetector`)
* `src/analyzers/content_classifier.py` (`ContentClassifier`)
* `src/src/emotional_decoration/boxing/content_analyzer.py` (`ContentAnalyzer`)
* `src/src/emotional_decoration/coloring/theme_generator.py` (`ThemeGenerator`)
* `src/src/emotional_decoration/models.py` (data model)

Python floats are modelled as exact rationals (`ℚ`); Python strings as Lean
`String`/`List Char` with the ASCII reading of the character classes `\w`,
`\s` and `str.lower()`.  Python dictionaries keyed by text or by profile
components become association lists with explicit state passing.  Wall-clock
fields (`processing_time`) are nondeterministic and are not part of the
model; every claim involving them explicitly excludes that field.
-/

namespace EmoDeco

/-! ## Character and string utilities (Python `\s`, `\w`, `lower`, `split`) -/

/-- Python regex `\s` / `str.split()` whitespace, ASCII range. -/
def pyIsSpace (c : Char) : Bool :=
  c = ' ' || c = '\t' || c = '\n' || c = '\r' || c = '\x0b' || c = '\x0c'

/-- Python regex `\w` (word character), ASCII range: letters, digits, `_`. -/
def pyIsWordChar (c : Char) : Bool :=
  c.isAlphanum || c = '_'

/-- True iff the text is empty or whitespace-only: Python
`not text or not text.strip()`. -/
def isBlank (text : String) : Bool :=
  text.data.all pyIsSpace

/-- Does `pat` occur at the start of `tgt`?  (`str.startswith`). -/
def startsWithCL : List Char → List Char → Bool
  | p :: ps, t :: ts => p = t && startsWithCL ps ts
  | [], _ => true
  | _, [] => false

/-- Does `pat` occur anywhere in `tgt`?  (Python `pat in tgt` on strings). -/
def containsCL : List Char → List Char → Bool
  | pat, [] => startsWithCL pat []
  | pat, t :: ts => startsWithCL pat (t :: ts) || containsCL pat ts

/-- Substring test on `String`s (Python `a in b`). -/
def strContains (tgt pat : String) : Bool :=
  containsCL pat.data tgt.data

/-- Tokenizer: split a character list into maximal runs of non-separator
characters, dropping empty pieces.  `tokensGo sep acc cs` carries the
reversed current run in `acc`. -/
def tokensGo (sep : Char → Bool) : List Char → List Char → List String
  | acc, [] => if acc.isEmpty then [] else [String.mk acc.reverse]
  | acc, c :: rest =>
    if sep c then
      if acc.isEmpty then tokensGo sep [] rest
      else String.mk acc.reverse :: tokensGo sep [] rest
    else tokensGo sep (c :: acc) rest

def tokensBy (sep : Char → Bool) (cs : List Char) : List String :=
  tokensGo sep [] cs

/-- Python `text.split()` (split on whitespace runs, no empties). -/
def pySplit (s : String) : List String :=
  tokensBy pyIsSpace s.data

/-- Matches of `re.findall` with pattern `\b\w+\b`: the maximal word-character runs of `s`. -/
def wordRuns (s : String) : List String :=
  tokensBy (fun c => !pyIsWordChar c) s.data

/-- Python `str.strip()` on a character list. -/
def stripChars (cs : List Char) : List Char :=
  ((cs.dropWhile pyIsSpace).reverse.dropWhile pyIsSpace).reverse

def stripStr (s : String) : String :=
  String.mk (stripChars s.data)

/-- Python `str.lower()`, ASCII reading. -/
def pyLower (s : String) : String :=
  String.mk (s.data.map Char.toLower)

/-- Association-list lookup (Python `dict[k]` / `k in dict`). -/
def lookupA {α β : Type} [DecidableEq α] : List (α × β) → α → Option β
  | [], _ => none
  | (k, v) :: rest, k₀ => if k = k₀ then some v else lookupA rest k₀

/-! ## Data model enumerations (`models.py`) -/

inductive EmotionType where
  | happy | sad | excited | calm | angry | fearful | surprised | neutral
deriving DecidableEq, Repr, Inhabited

inductive ContentType where
  | learning | entertainment | narrative | professional | technical | creative
deriving DecidableEq, Repr, Inhabited

inductive DifficultyLevel where
  | easy | medium | hard | expert
deriving DecidableEq, Repr, Inhabited

/-- The `.value` string of an `EmotionType` member. -/
def emotionValue : EmotionType → String
  | .happy => "happy" | .sad => "sad" | .excited => "excited" | .calm => "calm"
  | .angry => "angry" | .fearful => "fearful" | .surprised => "surprised"
  | .neutral => "neutral"

/-- The `.value` string of a `ContentType` member. -/
def contentTypeValue : ContentType → String
  | .learning => "learning" | .entertainment => "entertainment"
  | .narrative => "narrative" | .professional => "professional"
  | .technical => "technical" | .creative => "creative"

/-- The `.value` string of a `DifficultyLevel` member. -/
def difficultyValue : DifficultyLevel → String
  | .easy => "easy" | .medium => "medium" | .hard => "hard" | .expert => "expert"

/-- Keys of `EmotionDetector.emotion_keywords`, in dict insertion order
(there is no entry for `neutral`). -/
def scoringEmotions : List EmotionType :=
  [.happy, .sad, .excited, .calm, .angry, .fearful, .surprised]

/-- Iteration order of the full `EmotionType` enumeration as it appears in
the distribution dictionary: the seven scored emotions, then the missing
`neutral` filled in at the end. -/
def allEmotions : List EmotionType :=
  scoringEmotions ++ [.neutral]

/-- Members of `ContentType` in dict insertion order
(`ContentClassifier.content_indicators`). -/
def contentTypesList : List ContentType :=
  [.learning, .entertainment, .narrative, .professional, .technical, .creative]

/-! ## EmotionDetector (`emotion_detector.py`) -/

/-- Table `EmotionDetector.emotion_keywords`; `neutral` has no entry in the
Python dict, rendered here as the empty list. -/
def emotionKeywords : EmotionType → List String
  | .happy =>
    ["happy", "joy", "excited", "wonderful", "amazing", "great", "fantastic",
     "awesome", "brilliant", "excellent", "love", "celebrate", "success",
     "achievement", "victory", "smile", "laugh", "cheerful", "delighted"]
  | .sad =>
    ["sad", "sorrow", "grief", "depressed", "unhappy", "melancholy",
     "disappointed", "heartbroken", "tragedy", "loss", "cry", "tears",
     "pain", "hurt", "lonely", "empty", "despair", "misery"]
  | .excited =>
    ["excited", "thrilled", "energetic", "enthusiastic", "passionate",
     "eager", "pumped", "animated", "dynamic", "vibrant", "electric",
     "intense", "fired up", "exhilarated", "rush", "adrenaline"]
  | .calm =>
    ["calm", "peaceful", "serene", "tranquil", "relaxed", "gentle",
     "quiet", "still", "meditation", "zen", "balance", "harmony",
     "soothing", "comfortable", "stable", "centered", "mindful"]
  | .angry =>
    ["angry", "rage", "furious", "mad", "irritated", "frustrated",
     "annoyed", "outraged", "livid", "hate", "aggravated", "hostile",
     "resentful", "bitter", "explosive", "fierce", "aggressive"]
  | .fearful =>
    ["fear", "afraid", "scared", "terrified", "anxious", "worried",
     "nervous", "panic", "dread", "horror", "frightened", "alarmed",
     "concerned", "uneasy", "apprehensive", "timid", "insecure"]
  | .surprised =>
    ["surprised", "amazed", "astonished", "shocked", "stunned",
     "bewildered", "confused", "unexpected", "sudden", "wow",
     "incredible", "unbelievable", "extraordinary", "remarkable"]
  | .neutral => []

/-- Table `EmotionDetector.intensity_modifiers`. -/
def intensityModifierTable : List (String × ℚ) :=
  [("very", 13/10), ("extremely", 3/2), ("incredibly", 7/5),
   ("absolutely", 13/10), ("completely", 6/5), ("totally", 6/5),
   ("quite", 11/10), ("really", 6/5), ("so", 11/10), ("rather", 9/10),
   ("somewhat", 4/5), ("slightly", 7/10), ("a bit", 3/5), ("a little", 3/5)]

def modifierValue (w : String) : Option ℚ :=
  lookupA intensityModifierTable w

/-- Tokens of `EmotionDetector._clean_text(text).lower().split()`:
non-word characters other than apostrophes become spaces, then the text is
lowercased and split on whitespace. -/
def detectorWords (text : String) : List String :=
  tokensBy pyIsSpace
    (text.data.map fun c =>
      if pyIsWordChar c || c = '\'' then c.toLower else ' ')

/-- Score of one token against one emotion inside
`EmotionDetector._calculate_emotion_scores`: an exact keyword match adds
1.0, otherwise a fuzzy partial match (keyword contains the token or the
token contains the keyword) adds 0.5. -/
def wordEmotionScore (w : String) (e : EmotionType) : ℚ :=
  if w ∈ emotionKeywords e then 1
  else if (emotionKeywords e).any (fun kw => strContains w kw || strContains kw w)
  then 1/2 else 0

/-- Embeds `EmotionDetector._calculate_emotion_scores`. -/
def calcEmotionScores (words : List String) : EmotionType → ℚ :=
  fun e => (words.map (fun w => wordEmotionScore w e)).sum

/-- One inner step of `EmotionDetector._apply_intensity_modifiers`: multiply
the score of every emotion whose keyword list contains `w` by `m`. -/
def boostWord (m : ℚ) (w : String) (sc : EmotionType → ℚ) : EmotionType → ℚ :=
  fun e => if w ∈ emotionKeywords e then m * sc e else sc e

/-- Embeds `EmotionDetector._apply_intensity_modifiers`: each modifier token
multiplies the scores of emotion keywords found within the next three
tokens. -/
def applyIntensityModifiers (words : List String) (sc : EmotionType → ℚ) :
    EmotionType → ℚ :=
  (List.range words.length).foldl
    (fun sc i =>
      match modifierValue (words.getD i "") with
      | some m =>
        (List.range' (i + 1) (min (i + 4) words.length - (i + 1))).foldl
          (fun sc j => boostWord m (words.getD j "") sc) sc
      | none => sc)
    sc

/-- Positive word list of the fallback sentiment analysis in
`EmotionDetector._get_sentiment_boost`. -/
def positiveWords : List String :=
  ["good", "great", "excellent", "amazing", "wonderful", "love", "happy", "joy"]

/-- Negative word list of the fallback sentiment analysis. -/
def negativeWords : List String :=
  ["bad", "terrible", "awful", "hate", "sad", "angry", "fear", "worry"]

/-- Fallback polarity: `(positive_count - negative_count) / len(words)` on
`text.lower().split()`, or `0.0` when no sentiment word occurs. -/
def fallbackPolarity (text : String) : ℚ :=
  let ws := pySplit (pyLower text)
  let pos := (ws.filter (· ∈ positiveWords)).length
  let neg := (ws.filter (· ∈ negativeWords)).length
  if pos + neg = 0 then 0 else ((pos : ℚ) - (neg : ℚ)) / (ws.length : ℚ)

/-- Fallback subjectivity: `min(total_sentiment_words / len(words), 1.0)`,
or `0.0` for empty token lists. -/
def fallbackSubjectivity (text : String) : ℚ :=
  let ws := pySplit (pyLower text)
  let pos := (ws.filter (· ∈ positiveWords)).length
  let neg := (ws.filter (· ∈ negativeWords)).length
  if ws.isEmpty then 0 else min (((pos + neg : ℕ) : ℚ) / (ws.length : ℚ)) 1

/-- Polarity-driven part of `EmotionDetector._get_sentiment_boost`: the
boost dict before the subjectivity amplification. -/
def boostBase (polarity : ℚ) (e : EmotionType) : ℚ :=
  if 1/10 < polarity then
    match e with
    | .happy => 1 + polarity * (1/2)
    | .excited => 1 + polarity * (3/10)
    | .sad => 1 - polarity * (3/10)
    | .angry => 1 - polarity * (3/10)
    | .fearful => 1 - polarity * (1/5)
    | _ => 1
  else if polarity < -(1/10) then
    match e with
    | .sad => 1 + |polarity| * (1/2)
    | .angry => 1 + |polarity| * (2/5)
    | .fearful => 1 + |polarity| * (3/10)
    | .happy => 1 - |polarity| * (2/5)
    | .excited => 1 - |polarity| * (3/10)
    | _ => 1
  else 1

/-- Embeds `EmotionDetector._get_sentiment_boost`, fallback branch (the
repository treats the TextBlob analyzer as an optional external dependency
and this keyword-ratio branch is the in-repo semantics; any failure
degrades to the all-ones multiplier, which this total function never
needs).  High subjectivity amplifies the five emotional entries. -/
def sentimentBoost (text : String) : EmotionType → ℚ :=
  fun e =>
    if 1/2 < fallbackSubjectivity text ∧
        e ∈ [EmotionType.happy, .sad, .excited, .angry, .fearful] then
      boostBase (fallbackPolarity text) e *
        (1 + (fallbackSubjectivity text - 1/2) * (3/10))
    else boostBase (fallbackPolarity text) e

/-- First maximal element of `scoringEmotions` under the score function:
Python `max(emotion_scores, key=emotion_scores.get)` returns the first key
attaining the maximum in dict order. -/
def argmaxEmotion (s : EmotionType → ℚ) : EmotionType :=
  scoringEmotions.foldl (fun best e => if s best < s e then e else best) .happy

/-- Maximum of the seven stored scores (`max(emotion_scores.values())`). -/
def maxEmotionScore (s : EmotionType → ℚ) : ℚ :=
  (scoringEmotions.map s).foldl max 0

/-- Sum of the seven stored scores (`sum(emotion_scores.values())`). -/
def totalEmotionScore (s : EmotionType → ℚ) : ℚ :=
  (scoringEmotions.map s).sum

/-- Embeds `EmotionDetector.detect_emotion`. -/
def detectEmotion (text : String) : EmotionType × ℚ :=
  if isBlank text then (.neutral, 0)
  else
    let words := detectorWords text
    let s₀ := calcEmotionScores words
    let boost := sentimentBoost text
    let s₁ := applyIntensityModifiers words s₀
    let s₂ := fun e => s₁ e * boost e
    if maxEmotionScore s₂ = 0 then (.neutral, 0)
    else
      let primary := argmaxEmotion s₂
      (primary,
        if words.isEmpty then 0 else min (s₂ primary / (words.length : ℚ)) 1)

/-- The unnormalized emotion scores of `get_emotion_distribution` (steps
1–3: keyword scores plus intensity modifiers; the all-zero map for blank
input). -/
def rawEmotionScores (text : String) : EmotionType → ℚ :=
  if isBlank text then fun _ => 0
  else
    let words := detectorWords text
    applyIntensityModifiers words (calcEmotionScores words)

/-- Embeds `EmotionDetector.get_emotion_distribution`: keyword scores and
intensity modifiers (no sentiment boost), L1-normalized when the total is
positive; every emotion (including the unscored `neutral`) is present. -/
def getEmotionDistribution (text : String) : EmotionType → ℚ :=
  if isBlank text then fun _ => 0
  else
    let words := detectorWords text
    let s := applyIntensityModifiers words (calcEmotionScores words)
    let total := totalEmotionScore s
    if 0 < total then fun e => s e / total else s

/-! ## ContentClassifier (`content_classifier.py`)

The classifier counts regex matches.  Each regular expression used by the
source is compiled here, by hand, into an explicit scanning matcher with
`re.findall` semantics: scan left to right, at each position try the
pattern (alternatives in order, greedy quantifiers), emit the match and
continue after it, otherwise advance one character. -/

/-- One alternative of a `\b(?:...)\b`-style pattern: a literal phrase,
a literal followed by `\d+`, or a literal followed by `\d+\.\d+`. -/
inductive WBAlt where
  | lit (s : String)
  | litD (s : String)
  | litDdotD (s : String)

/-- Consume a literal prefix, returning the remainder. -/
def consumeLit : List Char → List Char → Option (List Char)
  | [], rest => some rest
  | _ :: _, [] => none
  | p :: ps, t :: ts => if p = t then consumeLit ps ts else none

/-- Boundary `\b` after the match: the next character, if any, is not a word
character (every alternative ends in a word character). -/
def endBoundary : List Char → Bool
  | [] => true
  | c :: _ => !pyIsWordChar c

/-- Try one alternative at the current position; on success return the
last matched character and the remainder. -/
def wbAltMatch : WBAlt → List Char → Option (Char × List Char)
  | .lit s, cs => do
    let rest ← consumeLit s.data cs
    if endBoundary rest then some (s.data.getLastD ' ', rest) else none
  | .litD s, cs => do
    let rest₁ ← consumeLit s.data cs
    let ds := rest₁.takeWhile Char.isDigit
    if ds.isEmpty then none
    else
      let rest₂ := rest₁.drop ds.length
      if endBoundary rest₂ then some (ds.getLastD '0', rest₂) else none
  | .litDdotD s, cs => do
    let rest₁ ← consumeLit s.data cs
    let ds₁ := rest₁.takeWhile Char.isDigit
    if ds₁.isEmpty then none
    else
      match rest₁.drop ds₁.length with
      | '.' :: rest₂ =>
        let ds₂ := rest₂.takeWhile Char.isDigit
        if ds₂.isEmpty then none
        else
          let rest₃ := rest₂.drop ds₂.length
          if endBoundary rest₃ then some (ds₂.getLastD '0', rest₃) else none
      | _ => none

/-- Boundary `\b` before the match (every alternative starts with a word character):
the preceding character, if any, is not a word character. -/
def startBoundary : Option Char → Bool
  | none => true
  | some c => !pyIsWordChar c

/-- Matcher for a `\b(?:a₁|a₂|...)\b` pattern: alternatives tried in
order. -/
def matchWBAlts (alts : List WBAlt) (prev : Option Char) (cs : List Char) :
    Option (Char × List Char) :=
  if startBoundary prev then alts.findSome? (fun a => wbAltMatch a cs) else none

/-- Fuel-bounded `re.findall` scan loop: count non-overlapping matches,
advancing one character on failure.  Every matcher used here consumes at
least one character, so `length + 1` fuel suffices. -/
def scanCountGo (m : Option Char → List Char → Option (Char × List Char)) :
    ℕ → Option Char → List Char → ℕ
  | 0, _, _ => 0
  | _ + 1, _, [] => 0
  | fuel + 1, prev, c :: rest =>
    match m prev (c :: rest) with
    | some (lc, rest₂) => 1 + scanCountGo m fuel (some lc) rest₂
    | none => scanCountGo m fuel (some c) rest

def scanCount (m : Option Char → List Char → Option (Char × List Char))
    (s : String) : ℕ :=
  scanCountGo m (s.data.length + 1) none s.data

/-- Number of `re.findall` matches of `\b(?:...)\b`. -/
def countWBAlts (alts : List WBAlt) (s : String) : ℕ :=
  scanCount (matchWBAlts alts) s

/-- Matcher for `[c]{2,}`-style alternations such as `[!]{2,}|[?]{2,}`:
at least two copies of the class character, greedily extended. -/
def matchCharRun2 (cls : List Char) (_ : Option Char) (cs : List Char) :
    Option (Char × List Char) :=
  cls.findSome? fun ch =>
    match cs with
    | c₁ :: c₂ :: _ =>
      if c₁ = ch ∧ c₂ = ch then
        some (ch, cs.drop (cs.takeWhile (· = ch)).length)
      else none
    | _ => none

/-- Matcher for `\$[\d,]+\.?\d*` (dollar amounts). -/
def matchDollar (_ : Option Char) (cs : List Char) : Option (Char × List Char) :=
  match cs with
  | '$' :: rest =>
    let body := rest.takeWhile (fun c => c.isDigit || c = ',')
    if body.isEmpty then none
    else
      let rest₁ := rest.drop body.length
      match rest₁ with
      | '.' :: r₂ =>
        let ds := r₂.takeWhile Char.isDigit
        some (if ds.isEmpty then '.' else ds.getLastD '0', r₂.drop ds.length)
      | _ => some (body.getLastD '0', rest₁)
  | _ => none

/-- Matcher for `[a-zA-Z_][a-zA-Z0-9_]*\(\)` (function-call syntax). -/
def matchFuncCall (_ : Option Char) (cs : List Char) : Option (Char × List Char) :=
  match cs with
  | c :: rest =>
    if c.isAlpha || c = '_' then
      match rest.drop (rest.takeWhile (fun x => x.isAlphanum || x = '_')).length with
      | '(' :: ')' :: r₂ => some (')', r₂)
      | _ => none
    else none
  | [] => none

/-- Matcher for `[~]+|[*]+.*[*]+`: a tilde run, or a pair of star groups on
the same line (`.` does not cross a newline); the greedy `.*` makes the
match extend to the last star of the line. -/
def matchStarTilde (_ : Option Char) (cs : List Char) : Option (Char × List Char) :=
  match cs with
  | '~' :: _ => some ('~', cs.drop (cs.takeWhile (· = '~')).length)
  | '*' :: _ =>
    let run := cs.takeWhile (· = '*')
    let rest₁ := cs.drop run.length
    let line := rest₁.takeWhile (· ≠ '\n')
    match (line.reverse.findIdx? (· = '*')) with
    | some i => some ('*', rest₁.drop (line.length - i))
    | none => if 2 ≤ run.length then some ('*', rest₁) else none
  | _ => none

/-- Table `content_indicators[...]['keywords']` of ContentClassifier.` -/
def contentKeywords : ContentType → List String
  | .learning =>
    ["learn", "study", "understand", "explain", "tutorial", "lesson",
     "chapter", "concept", "definition", "example", "exercise",
     "practice", "knowledge", "education", "research", "analysis",
     "theory", "principle", "method", "technique", "skill",
     "development", "improvement", "mastery", "fundamentals"]
  | .entertainment =>
    ["fun", "exciting", "adventure", "story", "movie", "game",
     "music", "dance", "party", "celebration", "humor", "comedy",
     "laugh", "entertainment", "show", "performance", "video",
     "social", "friends", "enjoy", "amazing", "awesome", "cool"]
  | .narrative =>
    ["story", "tale", "character", "plot", "journey", "adventure",
     "once", "began", "happened", "told", "narrative", "chapter",
     "episode", "scene", "dialogue", "description", "setting",
     "conflict", "resolution", "climax", "protagonist", "antagonist"]
  | .professional =>
    ["business", "company", "strategy", "management", "team",
     "project", "meeting", "client", "customer", "service",
     "solution", "analysis", "report", "proposal", "budget",
     "revenue", "profit", "growth", "market", "industry",
     "professional", "corporate", "organization", "department"]
  | .technical =>
    ["system", "software", "hardware", "code", "programming",
     "development", "algorithm", "database", "server", "network",
     "security", "protocol", "framework", "library", "api",
     "function", "variable", "parameter", "configuration", "debug",
     "implementation", "deployment", "architecture", "engineering"]
  | .creative =>
    ["art", "creative", "design", "beautiful", "inspiration",
     "imagination", "expression", "artistic", "aesthetic", "style",
     "color", "form", "composition", "texture", "visual", "audio",
     "poetry", "music", "painting", "sculpture", "photography",
     "writing", "creation", "innovation", "unique", "original"]

/-- Total keyword occurrences: `re.findall(r'\b' + kw + r'\b', text_lower)`
summed over the type's keyword list. -/
def keywordCountCT (ct : ContentType) (s : String) : ℕ :=
  ((contentKeywords ct).map (fun kw => countWBAlts [.lit kw] s)).sum

/-- Total `re.findall` matches of the four `patterns` of a content type
(run against the lowercased text, as in `_calculate_content_scores`). -/
def patternCount (ct : ContentType) (s : String) : ℕ :=
  match ct with
  | .learning =>
      countWBAlts [.lit "how to", .lit "learn", .lit "understand", .lit "explain"] s
    + countWBAlts [.litD "step ", .lit "first", .lit "second", .lit "third",
                   .lit "finally"] s
    + countWBAlts [.lit "in conclusion", .lit "to summarize", .lit "key points"] s
    + countWBAlts [.lit "for example", .lit "such as", .lit "including"] s
  | .entertainment =>
      countWBAlts [.lit "haha", .lit "lol", .lit "omg", .lit "wow"] s
    + countWBAlts [.lit "check this out", .lit "look at this", .lit "amazing"] s
    + countWBAlts [.lit "so funny", .lit "hilarious", .lit "incredible"] s
    + scanCount (matchCharRun2 ['!', '?']) s
  | .narrative =>
      countWBAlts [.lit "once upon a time", .lit "in the beginning",
                   .lit "long ago"] s
    + countWBAlts [.lit "he said", .lit "she said", .lit "they said"] s
    + countWBAlts [.lit "suddenly", .lit "meanwhile", .lit "later",
                   .lit "finally"] s
    + countWBAlts [.lit "the end", .lit "to be continued"] s
  | .professional =>
      countWBAlts [.litD "q", .litD "fy", .lit "kpi", .lit "roi", .lit "ceo",
                   .lit "cfo", .lit "cto"] s
    + countWBAlts [.lit "please find", .lit "attached", .lit "regarding",
                   .lit "pursuant to"] s
    + countWBAlts [.lit "best regards", .lit "sincerely", .lit "respectfully"] s
    + scanCount matchDollar s
  | .technical =>
      countWBAlts [.lit "var", .lit "const", .lit "function", .lit "class",
                   .lit "import", .lit "export"] s
    + countWBAlts [.lit "http", .lit "api", .lit "sql", .lit "json", .lit "xml",
                   .lit "css", .lit "html"] s
    + countWBAlts [.litD "version ", .litDdotD "v"] s
    + scanCount matchFuncCall s
  | .creative =>
      countWBAlts [.lit "imagine", .lit "visualize", .lit "picture this",
                   .lit "envision"] s
    + countWBAlts [.lit "artistic", .lit "creative", .lit "innovative",
                   .lit "unique"] s
    + countWBAlts [.lit "colors", .lit "shapes", .lit "forms", .lit "textures"] s
    + scanCount matchStarTilde s

/-- Embeds `ContentClassifier._calculate_content_scores`: keyword hits plus
double-weighted pattern hits, normalized by `max(word_count, 1)` of the
lowercased text. -/
def calcContentScores (text : String) : ContentType → ℚ :=
  let lower := pyLower text
  let wc := (wordRuns lower).length
  fun ct =>
    ((keywordCountCT ct lower : ℚ) + (patternCount ct lower : ℚ) * 2) /
      ((max wc 1 : ℕ) : ℚ)

/-! Structural signals of `ContentClassifier._analyze_structure`, computed
on the raw (non-lowercased) text. -/

/-- All suffixes of the text that start at a line start (`^` with
`re.MULTILINE`). -/
def lineTails : List Char → List (List Char)
  | [] => []
  | c :: rest => if c = '\n' then rest :: lineTails rest else lineTails rest

def lineStartsList (cs : List Char) : List (List Char) :=
  cs :: lineTails cs

/-- Pattern `^\s*\d+[\.\)]\s+` tried at one line start. -/
def numberedAt (cs : List Char) : Bool :=
  let r := cs.dropWhile pyIsSpace
  let ds := r.takeWhile Char.isDigit
  if ds.isEmpty then false
  else
    match r.drop ds.length with
    | p :: s :: _ => (p = '.' || p = ')') && pyIsSpace s
    | _ => false

/-- Boolean of `re.search` for `^\s*\d+[\.\)]\s+` with `re.MULTILINE`. -/
def hasNumberedList (text : String) : Bool :=
  (lineStartsList text.data).any numberedAt

/-- Pattern `^\s*[•\-\*]\s+` tried at one line start. -/
def bulletAt (cs : List Char) : Bool :=
  match cs.dropWhile pyIsSpace with
  | b :: s :: _ => (b = '•' || b = '-' || b = '*') && pyIsSpace s
  | _ => false

def hasBulletPoint (text : String) : Bool :=
  (lineStartsList text.data).any bulletAt

/-- Split into lines (keeping empty lines), for patterns whose `.` cannot
cross a newline. -/
def splitLinesGo : List Char → List Char → List (List Char)
  | acc, [] => [acc.reverse]
  | acc, c :: rest =>
    if c = '\n' then acc.reverse :: splitLinesGo [] rest
    else splitLinesGo (c :: acc) rest

def splitLines (cs : List Char) : List (List Char) :=
  splitLinesGo [] cs

/-- Boolean of the `quotes` structural search (a quote character, any
non-newline characters, then another quote character): two quote
characters on one line. -/
def hasQuotePair (text : String) : Bool :=
  (splitLines text.data).any
    (fun l => 2 ≤ (l.filter (fun c => c = '"' || c = '\'')).length)

/-- Boolean of the `code_blocks` structural search: at least two backticks on one line. -/
def hasCodeBlock (text : String) : Bool :=
  (splitLines text.data).any (fun l => 2 ≤ (l.filter (· = '`')).length)

/-- Boolean of the `urls` structural search (`https?://` then a
non-whitespace character). -/
def hasUrl (text : String) : Bool :=
  text.data.tails.any fun t =>
    (startsWithCL "http://".data t &&
      (match t.drop 7 with | c :: _ => !pyIsSpace c | [] => false)) ||
    (startsWithCL "https://".data t &&
      (match t.drop 8 with | c :: _ => !pyIsSpace c | [] => false))

/-- Boolean of the `hashtags` structural search (`#` then a word
character). -/
def hasHashtag (text : String) : Bool :=
  text.data.tails.any fun t =>
    match t with | '#' :: c :: _ => pyIsWordChar c | _ => false

/-- Boolean of the `mentions` structural search (`@` then a word
character). -/
def hasMention (text : String) : Bool :=
  text.data.tails.any fun t =>
    match t with | '@' :: c :: _ => pyIsWordChar c | _ => false

def countCharIn (c : Char) (text : String) : ℕ :=
  (text.data.filter (· = c)).length

/-- Question-density signal of `_analyze_structure`: some `?` present and
question marks per `.`-split piece above 20%. -/
def questionSignal (text : String) : Bool :=
  decide (0 < countCharIn '?' text) &&
  decide ((1/5 : ℚ) <
    (countCharIn '?' text : ℚ) / ((countCharIn '.' text : ℚ) + 1))

/-- Exclamation-density signal of `_analyze_structure`: some `!` present
and exclamation marks per whitespace token above 5%. -/
def exclSignal (text : String) : Bool :=
  decide (0 < countCharIn '!' text) &&
  decide ((1/20 : ℚ) <
    (countCharIn '!' text : ℚ) / ((pySplit text).length : ℚ))

/-- Embeds `ContentClassifier._analyze_structure`: the multiplicative boost
each content type receives from the structural signals (the source
multiplies the factors into a dict sequentially; multiplication is
commutative, so each type's final boost is the product of its signal
factors). -/
def structuralBoost (text : String) : ContentType → ℚ :=
  fun ct =>
    match ct with
    | .learning =>
        (if hasNumberedList text then (13/10 : ℚ) else 1) *
        (if hasBulletPoint text then 11/10 else 1) *
        (if questionSignal text then 6/5 else 1)
    | .entertainment =>
        (if questionSignal text then (11/10 : ℚ) else 1) *
        (if exclSignal text then 13/10 else 1) *
        (if hasHashtag text || hasMention text then 6/5 else 1)
    | .narrative =>
        (if hasQuotePair text then (6/5 : ℚ) else 1)
    | .professional =>
        (if hasNumberedList text then (11/10 : ℚ) else 1) *
        (if hasBulletPoint text then 6/5 else 1) *
        (if hasUrl text then 11/10 else 1)
    | .technical =>
        (if hasCodeBlock text then (3/2 : ℚ) else 1) *
        (if hasUrl text then 11/10 else 1)
    | .creative =>
        (if exclSignal text then (6/5 : ℚ) else 1) *
        (if hasQuotePair text then 11/10 else 1) *
        (if hasHashtag text || hasMention text then 11/10 else 1)

/-- The boosted scores used by `classify_content` and
`get_content_distribution`. -/
def boostedContentScores (text : String) : ContentType → ℚ :=
  fun ct => calcContentScores text ct * structuralBoost text ct

def argmaxContent (s : ContentType → ℚ) : ContentType :=
  contentTypesList.foldl (fun best e => if s best < s e then e else best) .learning

def maxContentScore (s : ContentType → ℚ) : ℚ :=
  (contentTypesList.map s).foldl max 0

def totalContentScore (s : ContentType → ℚ) : ℚ :=
  (contentTypesList.map s).sum

/-- Embeds `ContentClassifier.classify_content`. -/
def classifyContent (text : String) : ContentType × ℚ :=
  if isBlank text then (.professional, 0)
  else
    let sc := boostedContentScores text
    if maxContentScore sc = 0 then (.professional, 0)
    else
      let primary := argmaxContent sc
      let total := totalContentScore sc
      (primary, if 0 < total then sc primary / total else 0)

/-- Embeds `ContentClassifier.get_content_distribution`. -/
def getContentDistribution (text : String) : ContentType → ℚ :=
  if isBlank text then fun _ => 0
  else
    let sc := boostedContentScores text
    let total := totalContentScore sc
    if 0 < total then fun ct => sc ct / total else sc

/-- Split on runs of sentence punctuation, stripped, empties dropped — shared by
`ContentClassifier.analyze_complexity` and
`ContentAnalyzer._split_sentences`. -/
def splitSentences (text : String) : List String :=
  ((tokensBy (fun c => c = '.' || c = '!' || c = '?') text.data).map
    stripStr).filter (· ≠ "")

structure ComplexityMetrics where
  avg_word_length : ℚ
  avg_sentence_length : ℚ
  vocabulary_richness : ℚ
  readability_score : ℚ
deriving DecidableEq, Repr

/-- Embeds `ContentClassifier.analyze_complexity`. -/
def analyzeComplexity (text : String) : ComplexityMetrics :=
  let words := wordRuns (pyLower text)
  let sentences := splitSentences text
  if words.isEmpty || sentences.isEmpty then ⟨0, 0, 0, 0⟩
  else
    let awl : ℚ := ((words.map String.length).sum : ℚ) / (words.length : ℚ)
    let asl : ℚ := (words.length : ℚ) / (sentences.length : ℚ)
    let vr : ℚ := (words.dedup.length : ℚ) / (words.length : ℚ)
    ⟨awl, asl, vr, max 0 (min 1 (1 - (asl * (1/50) + awl * (1/10) - 1/2)))⟩

/-! ## ContentAnalyzer (`boxing/content_analyzer.py`)

The analyzer's wall-clock field `processing_time` is nondeterministic
(`time.time()` differences) and is omitted from `AnalysisResult`; every
claim about cached results explicitly excludes it.  The analysis cache
(dict keyed by the exact input text) is an association list passed
explicitly. -/

structure ContentProfile where
  emotion : EmotionType
  content_type : ContentType
  difficulty : DifficultyLevel
  emotion_intensity : ℚ
  reading_speed : ℚ
  key_themes : List String
  recommended_theme : String
  confidence : ℚ
deriving DecidableEq, Repr, Inhabited

structure AnalysisResult where
  text : String
  profile : ContentProfile
  word_count : ℕ
  character_count : ℕ
  sentences : List String
  keywords : List String
deriving DecidableEq, Repr, Inhabited

/-- Embeds `ContentAnalyzer._assess_difficulty`. -/
def assessDifficulty (text : String) : DifficultyLevel :=
  let m := analyzeComplexity text
  let score : ℚ :=
    (m.avg_word_length - 4) * (3/10) +
    (m.avg_sentence_length - 15) * (1/50) +
    (m.vocabulary_richness - 1/2) * (1/2)
  if score < -(3/10) then .easy
  else if score < 1/10 then .medium
  else if score < 2/5 then .hard
  else .expert

/-- Reading-speed modifier table of
`ContentAnalyzer._estimate_reading_speed` (with the dict-`get` default
of `1.0`, which no member of the closed enumeration hits). -/
def speedModifier : ContentType → ℚ
  | .learning => 4/5
  | .entertainment => 6/5
  | .narrative => 1
  | .professional => 9/10
  | .technical => 7/10
  | .creative => 11/10

/-- Embeds `ContentAnalyzer._estimate_reading_speed`: 250 words per minute
times the content-type modifier (the `text` argument is unused, as in the
source). -/
def estimateReadingSpeed (_text : String) (ct : ContentType) : ℚ :=
  250 * speedModifier ct

/-- Embeds `ContentAnalyzer._extract_key_themes`: content types then
emotions whose distribution score exceeds 0.2, emotions suffixed
`_emotion`, capped at five. -/
def extractKeyThemes (text : String) : List String :=
  let contentDist := getContentDistribution text
  let emotionDist := getEmotionDistribution text
  let contentThemes :=
    (contentTypesList.filter (fun ct => (1/5 : ℚ) < contentDist ct)).map
      contentTypeValue
  let emotionThemes :=
    (allEmotions.filter (fun e => (1/5 : ℚ) < emotionDist e)).map
      (fun e => emotionValue e ++ "_emotion")
  (contentThemes ++ emotionThemes).take 5

/-- Base theme of `ContentAnalyzer._determine_recommended_theme`, chosen
from the content type (`narrative`/`creative` share `emotional`; everything
else defaults to `professional`). -/
def baseThemeName : ContentType → String
  | .learning => "learning"
  | .professional => "professional"
  | .narrative => "emotional"
  | .creative => "emotional"
  | _ => "professional"

/-- Embeds `ContentAnalyzer._determine_recommended_theme`.  The emotion
branches return early; the difficulty adjustment is reached only for
emotions outside all three emotion groups (`angry` and `surprised`). -/
def determineRecommendedTheme (emotion : EmotionType) (ct : ContentType)
    (difficulty : DifficultyLevel) : String :=
  let base := baseThemeName ct
  if emotion = .excited ∨ emotion = .happy then
    if base = "learning" then "learning_energetic"
    else if base = "professional" then "professional_positive"
    else "emotional_vibrant"
  else if emotion = .calm ∨ emotion = .neutral then
    if base = "learning" then "learning_focused"
    else if base = "professional" then "professional_minimal"
    else "emotional_serene"
  else if emotion = .sad ∨ emotion = .fearful then
    if base = "learning" then "learning_supportive"
    else if base = "professional" then "professional_subtle"
    else "emotional_contemplative"
  else if difficulty = .expert then base ++ "_sophisticated"
  else if difficulty = .easy then base ++ "_accessible"
  else base

/-- Stop-word set of `ContentAnalyzer._extract_keywords`. -/
def stopWords : List String :=
  ["the", "a", "an", "and", "or", "but", "in", "on", "at", "to", "for",
   "of", "with", "by", "is", "are", "was", "were", "be", "been", "have",
   "has", "had", "do", "does", "did", "will", "would", "could", "should",
   "may", "might", "must", "can", "this", "that", "these", "those", "i",
   "you", "he", "she", "it", "we", "they", "me", "him", "her", "us", "them"]

/-- Deduplicate keeping the first occurrence of each element (insertion
order of `collections.Counter` keys). -/
def firstDedupGo : List String → List String → List String
  | _, [] => []
  | seen, x :: xs =>
    if x ∈ seen then firstDedupGo seen xs
    else x :: firstDedupGo (x :: seen) xs

def firstDedup (l : List String) : List String :=
  firstDedupGo [] l

def countOcc (l : List String) (w : String) : ℕ :=
  (l.filter (· = w)).length

/-- Stable insertion into a count-descending list: an element goes after
every element with a count at least as large, matching the stable sort of
`Counter.most_common` (ties keep first-occurrence order). -/
def insByCount (c : String → ℕ) (x : String) : List String → List String
  | [] => [x]
  | y :: ys => if c y < c x then x :: y :: ys else y :: insByCount c x ys

def sortByCountDesc (c : String → ℕ) (l : List String) : List String :=
  l.foldl (fun acc x => insByCount c x acc) []

/-- Embeds `ContentAnalyzer._extract_keywords`: lowercase word runs minus
stop words and words of length two or less; the twenty most frequent, ties
in first-occurrence order. -/
def extractKeywords (text : String) : List String :=
  let ws := wordRuns (pyLower text)
  let filtered := ws.filter (fun w => w ∉ stopWords ∧ 2 < w.length)
  (sortByCountDesc (countOcc filtered) (firstDedup filtered)).take 20

/-- The cache-miss computation of `ContentAnalyzer.analyze` (lines 44–95
of the source; `processing_time` omitted). -/
def computeAnalysis (text : String) : AnalysisResult :=
  let d := detectEmotion text
  let c := classifyContent text
  let difficulty := assessDifficulty text
  { text := text
    profile :=
      { emotion := d.1
        content_type := c.1
        difficulty := difficulty
        emotion_intensity := d.2
        reading_speed := estimateReadingSpeed text c.1
        key_themes := extractKeyThemes text
        recommended_theme := determineRecommendedTheme d.1 c.1 difficulty
        confidence := c.2 }
    word_count := (pySplit text).length
    character_count := text.data.length
    sentences := splitSentences text
    keywords := extractKeywords text }

/-- The analysis cache: Python dict from exact input text to the stored
`AnalysisResult`. -/
def AnalysisCache : Type := List (String × AnalysisResult)

/-- Embeds `ContentAnalyzer.analyze` as a state transformer on the cache:
on a hit the stored result is returned unchanged (its `processing_time`,
not modelled, is refreshed in the source); on a miss the result is
computed and stored when caching is enabled. -/
def analyze (text : String) (useCache : Bool) (cache : AnalysisCache) :
    AnalysisResult × AnalysisCache :=
  if useCache then
    match lookupA cache text with
    | some r => (r, cache)
    | none =>
      let r := computeAnalysis text
      (r, (text, r) :: cache)
  else (computeAnalysis text, cache)

/-- Embeds `ContentAnalyzer.analyze_batch`: sequential `analyze` over the
list, results in input order. -/
def analyzeBatch (texts : List String) (useCache : Bool)
    (cache : AnalysisCache) : List AnalysisResult × AnalysisCache :=
  match texts with
  | [] => ([], cache)
  | t :: ts =>
    let p := analyze t useCache cache
    let q := analyzeBatch ts useCache p.2
    (p.1 :: q.1, q.2)

/-- Embeds `ContentAnalyzer.get_cache_stats`: entry count and total cached
key characters. -/
def cacheStats (cache : AnalysisCache) : ℕ × ℕ :=
  (cache.length, (cache.map (fun p => p.1.data.length)).sum)

/-- Well-formedness of the analysis cache: every entry stores a result for
exactly its key text (true of every state reachable through `analyze`). -/
def cacheWF (cache : AnalysisCache) : Bool :=
  cache.all (fun p => p.2.text == p.1)

/-! ## ThemeGenerator (`coloring/theme_generator.py`) and the theme data
model (`models.py`)

Colors are the `#RRGGBB` strings of the source.  The loaded-theme store of
`ThemeLoader` is populated from YAML files on disk; it is passed in as an
association list, and pydantic's `ColorScheme` field patterns guarantee
that every loaded color matches `#RRGGBB` (hypothesis `themesValid`). -/

structure ColorScheme where
  primary_start : String
  primary_end : String
  background_start : String
  background_end : String
  accent_color : String
  glow_color : String
deriving DecidableEq, Repr

structure VisualEffect where
  glow_intensity : ℚ
  animation_speed : ℚ
  blur_radius : ℚ
  pulse_enabled : Bool
  gradient_angle : ℤ
  shadow_enabled : Bool
  shadow_intensity : ℚ
deriving DecidableEq, Repr

structure ThemeConfig where
  name : String
  description : String
  colors : ColorScheme
  effects : VisualEffect
  typography : List (String × String)
  compatibility : List String
deriving DecidableEq, Repr

/-- Hex-digit test for the pydantic pattern `^#[0-9A-Fa-f]{6}$`. -/
def isHexDigitChar (c : Char) : Bool :=
  c.isDigit || ('a' ≤ c && c ≤ 'f') || ('A' ≤ c && c ≤ 'F')

/-- Does the string match the pydantic pattern `^#[0-9A-Fa-f]{6}$`? -/
def isHexColor (s : String) : Bool :=
  match s.data with
  | '#' :: rest => rest.length = 6 && rest.all isHexDigitChar
  | _ => false

/-- All six fields of a `ColorScheme` match `#RRGGBB` (what pydantic
validates at construction). -/
def validColorScheme (c : ColorScheme) : Bool :=
  isHexColor c.primary_start && isHexColor c.primary_end &&
  isHexColor c.background_start && isHexColor c.background_end &&
  isHexColor c.accent_color && isHexColor c.glow_color

/-- Value table for `int(hex_digit, 16)`; the default 0 is never hit on the
palette literals the source parses. -/
def hexValTable : List (Char × ℕ) :=
  [('0', 0), ('1', 1), ('2', 2), ('3', 3), ('4', 4), ('5', 5), ('6', 6),
   ('7', 7), ('8', 8), ('9', 9), ('a', 10), ('b', 11), ('c', 12), ('d', 13),
   ('e', 14), ('f', 15), ('A', 10), ('B', 11), ('C', 12), ('D', 13),
   ('E', 14), ('F', 15)]

def hexDigitVal (c : Char) : ℕ :=
  ((hexValTable.find? (fun p => p.1 = c)).map Prod.snd).getD 0

def hexPairVal (c₁ c₂ : Char) : ℕ :=
  hexDigitVal c₁ * 16 + hexDigitVal c₂

/-- Embeds `hex_to_rgb` of `_blend_hex_colors`: strip leading `#`, parse
three two-digit pairs. -/
def hexToRgb (s : String) : ℕ × ℕ × ℕ :=
  let cs := s.data.dropWhile (· = '#')
  (hexPairVal (cs.getD 0 '0') (cs.getD 1 '0'),
   hexPairVal (cs.getD 2 '0') (cs.getD 3 '0'),
   hexPairVal (cs.getD 4 '0') (cs.getD 5 '0'))

/-- Lowercase hex digit of `'%x'`: codepoint 48 + d for 0–9, 87 + d for
a–f. -/
def hexCharOf (n : ℕ) : Char :=
  if n % 16 < 10 then Char.ofNat (48 + n % 16) else Char.ofNat (87 + n % 16)

/-- Embeds `rgb_to_hex` (`'#%02x%02x%02x'`), for channel values at most
255. -/
def rgbToHex (r g b : ℕ) : String :=
  String.mk ['#', hexCharOf (r / 16), hexCharOf (r % 16),
             hexCharOf (g / 16), hexCharOf (g % 16),
             hexCharOf (b / 16), hexCharOf (b % 16)]

/-- Embeds `_blend_hex_colors` at the only ratio used (the default `0.5`):
`int(a*0.5 + b*0.5)` on each channel is exact floor averaging. -/
def blendHex (c₁ c₂ : String) : String :=
  let r₁ := hexToRgb c₁
  let r₂ := hexToRgb c₂
  rgbToHex ((r₁.1 + r₂.1) / 2) ((r₁.2.1 + r₂.2.1) / 2) ((r₁.2.2 + r₂.2.2) / 2)

/-- Embeds `_blend_colors`: both dicts carry the same six keys, so every
field is blended. -/
def blendScheme (c₁ c₂ : ColorScheme) : ColorScheme :=
  ⟨blendHex c₁.primary_start c₂.primary_start,
   blendHex c₁.primary_end c₂.primary_end,
   blendHex c₁.background_start c₂.background_start,
   blendHex c₁.background_end c₂.background_end,
   blendHex c₁.accent_color c₂.accent_color,
   blendHex c₁.glow_color c₂.glow_color⟩

/-! The eleven predefined palettes of `_initialize_base_palettes`. -/

def learningFocusedPalette : ColorScheme :=
  ⟨"#4A90E2", "#7ED321", "#000428", "#004e92", "#50E3C2", "#4A90E2"⟩
def learningEnergeticPalette : ColorScheme :=
  ⟨"#FF6B6B", "#4ECDC4", "#134E5E", "#71B280", "#45B7D1", "#FF6B6B"⟩
def learningSupportivePalette : ColorScheme :=
  ⟨"#A8E6CF", "#88D8A3", "#2C3E50", "#4A6741", "#7FB069", "#A8E6CF"⟩
def learningAccessiblePalette : ColorScheme :=
  ⟨"#6C5CE7", "#A29BFE", "#2D3436", "#636E72", "#74B9FF", "#6C5CE7"⟩
def professionalMinimalPalette : ColorScheme :=
  ⟨"#2F3542", "#57606F", "#F8F9FA", "#E9ECEF", "#3742FA", "#2F3542"⟩
def professionalPositivePalette : ColorScheme :=
  ⟨"#00B894", "#00CEC9", "#DDD6FE", "#E0E7FF", "#0984E3", "#00B894"⟩
def professionalSubtlePalette : ColorScheme :=
  ⟨"#636E72", "#B2BEC3", "#2D3436", "#636E72", "#74B9FF", "#636E72"⟩
def professionalSophisticatedPalette : ColorScheme :=
  ⟨"#2D3436", "#636E72", "#1A1A1A", "#2D3436", "#FDCB6E", "#2D3436"⟩
def emotionalVibrantPalette : ColorScheme :=
  ⟨"#FF7675", "#FDCB6E", "#6C5CE7", "#A29BFE", "#FD79A8", "#FF7675"⟩
def emotionalSerenePalette : ColorScheme :=
  ⟨"#81ECEC", "#74B9FF", "#2D3436", "#636E72", "#00B894", "#81ECEC"⟩
def emotionalContemplativePalette : ColorScheme :=
  ⟨"#A29BFE", "#6C5CE7", "#2D3436", "#636E72", "#74B9FF", "#A29BFE"⟩

def baseColorPalettes : List (String × ColorScheme) :=
  [("learning_focused", learningFocusedPalette),
   ("learning_energetic", learningEnergeticPalette),
   ("learning_supportive", learningSupportivePalette),
   ("learning_accessible", learningAccessiblePalette),
   ("professional_minimal", professionalMinimalPalette),
   ("professional_positive", professionalPositivePalette),
   ("professional_subtle", professionalSubtlePalette),
   ("professional_sophisticated", professionalSophisticatedPalette),
   ("emotional_vibrant", emotionalVibrantPalette),
   ("emotional_serene", emotionalSerenePalette),
   ("emotional_contemplative", emotionalContemplativePalette)]

/-- Emotion palette table of `_generate_colors_from_profile`. -/
def emotionColors : EmotionType → ColorScheme
  | .happy => ⟨"#FFD93D", "#FF6B6B", "#74B9FF", "#0984E3", "#00B894", "#FFD93D"⟩
  | .excited => ⟨"#FF6B6B", "#4ECDC4", "#A29BFE", "#6C5CE7", "#FDCB6E", "#FF6B6B"⟩
  | .calm => ⟨"#81ECEC", "#74B9FF", "#2D3436", "#636E72", "#00B894", "#81ECEC"⟩
  | .sad => ⟨"#A29BFE", "#6C5CE7", "#2D3436", "#636E72", "#74B9FF", "#A29BFE"⟩
  | .angry => ⟨"#E17055", "#D63031", "#2D3436", "#636E72", "#FDCB6E", "#E17055"⟩
  | .fearful => ⟨"#636E72", "#B2BEC3", "#2D3436", "#636E72", "#74B9FF", "#636E72"⟩
  | .surprised => ⟨"#FDCB6E", "#E17055", "#6C5CE7", "#A29BFE", "#FF7675", "#FDCB6E"⟩
  | .neutral => ⟨"#2F3542", "#57606F", "#F8F9FA", "#E9ECEF", "#3742FA", "#2F3542"⟩

/-- Embeds `_generate_colors_from_profile`: the emotion palette, blended
50/50 with `learning_focused` or `professional_minimal` for those content
types. -/
def generateColorsFromProfile (p : ContentProfile) : ColorScheme :=
  let base := emotionColors p.emotion
  if p.content_type = .learning then blendScheme base learningFocusedPalette
  else if p.content_type = .professional then
    blendScheme base professionalMinimalPalette
  else base

/-- Embeds `_generate_color_scheme`.  The saturation and brightness
adjustments (`_increase_saturation`, `_decrease_saturation`,
`_adjust_brightness`) return their input unchanged in the source, so the
two adjustment passes are the identity. -/
def generateColorScheme (p : ContentProfile) : ColorScheme :=
  match lookupA baseColorPalettes p.recommended_theme with
  | some base => base
  | none => generateColorsFromProfile p

/-! Effect templates of `_initialize_effect_templates`. -/

def subtleEffect : VisualEffect := ⟨1/5, 1, 0, false, 45, true, 3/10⟩
def moderateEffect : VisualEffect := ⟨2/5, 1, 1/2, true, 90, true, 1/2⟩
def vibrantEffect : VisualEffect := ⟨3/5, 6/5, 1, true, 135, true, 7/10⟩
def energeticEffect : VisualEffect := ⟨4/5, 3/2, 3/2, true, 180, true, 4/5⟩

/-- Embeds `_generate_visual_effects`: intensity-selected template,
content-type multipliers, template-type adjustments. -/
def generateVisualEffects (p : ContentProfile) (templateType : String) :
    VisualEffect :=
  let base :=
    if (4/5 : ℚ) < p.emotion_intensity then energeticEffect
    else if (3/5 : ℚ) < p.emotion_intensity then vibrantEffect
    else if (3/10 : ℚ) < p.emotion_intensity then moderateEffect
    else subtleEffect
  let e₁ :=
    if p.content_type = .learning then
      { base with animation_speed := base.animation_speed * (4/5),
                  glow_intensity := base.glow_intensity * (9/10) }
    else if p.content_type = .professional then
      { base with animation_speed := base.animation_speed * (7/10),
                  glow_intensity := base.glow_intensity * (3/5),
                  pulse_enabled := false }
    else if p.content_type = .entertainment then
      { base with animation_speed := base.animation_speed * (6/5),
                  glow_intensity := base.glow_intensity * (11/10) }
    else base
  if templateType = "railway" then { e₁ with gradient_angle := 0 }
  else if templateType = "scroll" then
    { e₁ with animation_speed := e₁.animation_speed * (4/5) }
  else e₁

/-- Python dict update on a string-keyed association list: replace in
place or append. -/
def setA : List (String × String) → String → String → List (String × String)
  | [], k, v => [(k, v)]
  | (k₀, v₀) :: rest, k, v =>
    if k₀ = k then (k, v) :: rest else (k₀, v₀) :: setA rest k v

/-- Embeds `_generate_typography`. -/
def generateTypography (p : ContentProfile) : List (String × String) :=
  let t₀ := [("font_weight", "normal"), ("letter_spacing", "normal"),
             ("line_height", "1.6"), ("text_transform", "none")]
  let t₁ :=
    if p.content_type = .professional then
      setA (setA t₀ "font_weight" "500") "letter_spacing" "0.01em"
    else if p.content_type = .learning then
      setA (setA t₀ "line_height" "1.8") "letter_spacing" "0.02em"
    else if p.content_type = .creative then
      setA (setA t₀ "font_weight" "300") "letter_spacing" "0.05em"
    else t₀
  if p.difficulty = .expert then
    setA (setA t₁ "font_weight" "600") "letter_spacing" "0.01em"
  else if p.difficulty = .easy then
    setA (setA t₁ "font_weight" "400") "letter_spacing" "0.03em"
  else t₁

/-- Result of `str.title()` on the emotion `.value`. -/
def emotionTitle : EmotionType → String
  | .happy => "Happy" | .sad => "Sad" | .excited => "Excited" | .calm => "Calm"
  | .angry => "Angry" | .fearful => "Fearful" | .surprised => "Surprised"
  | .neutral => "Neutral"

/-- Result of `str.title()` on the content-type `.value`. -/
def contentTitle : ContentType → String
  | .learning => "Learning" | .entertainment => "Entertainment"
  | .narrative => "Narrative" | .professional => "Professional"
  | .technical => "Technical" | .creative => "Creative"

/-- One-decimal rounding used by the `:.1f` format spec; Python rounds the
nearest binary double half-to-even while `round` is half-up, a difference
only at exact ties no claim depends on. -/
def roundTenths (q : ℚ) : ℤ :=
  round (10 * q)

/-- Rendering of `f"{q:.1f}"` for the nonnegative intensities that occur. -/
def fmtTenths (q : ℚ) : String :=
  toString (roundTenths q / 10) ++ "." ++ toString (roundTenths q % 10)

/-- Embeds `_generate_theme_name`. -/
def generateThemeName (p : ContentProfile) : String :=
  emotionTitle p.emotion ++ " " ++ contentTitle p.content_type ++ " (" ++
    (if (3/5 : ℚ) < p.emotion_intensity then "High" else "Low") ++ " Intensity)"

/-- Embeds `_generate_theme_description`. -/
def generateThemeDescription (p : ContentProfile) : String :=
  "A " ++ emotionValue p.emotion ++ " theme optimized for " ++
    contentTypeValue p.content_type ++ " content with " ++
    difficultyValue p.difficulty ++ " difficulty level and " ++
    fmtTenths p.emotion_intensity ++ " emotion intensity."

/-- The theme cache key.  The source renders
`f"{emotion}_{content}_{difficulty}_{template}_{intensity:.1f}"`; the
enumeration values contain no underscore and the intensity suffix is a
fixed-width `d.d`, so that string determines and is determined by this
tuple — the key is modelled as the tuple. -/
abbrev ThemeCacheKey := EmotionType × ContentType × DifficultyLevel × String × ℤ

def themeCacheKey (p : ContentProfile) (templateType : String) : ThemeCacheKey :=
  (p.emotion, p.content_type, p.difficulty, templateType,
   roundTenths p.emotion_intensity)

def ThemeCache : Type := List (ThemeCacheKey × ThemeConfig)

/-- Dedup-and-filter loop of `ThemeLoader.find_themes_for_profile`: keep
first occurrences that name a loaded theme. -/
def uniqueLoaded (loaded : List (String × ThemeConfig)) :
    List String → List String → List String
  | _, [] => []
  | seen, n :: rest =>
    if n ∉ seen ∧ (lookupA loaded n).isSome then
      n :: uniqueLoaded loaded (n :: seen) rest
    else uniqueLoaded loaded seen rest

/-- Embeds `ThemeLoader.find_themes_for_profile` (string-typed arguments,
as in the source, which receives the `.value` strings). -/
def findThemesForProfile (loaded : List (String × ThemeConfig))
    (emotion contentType difficulty : String) : List String :=
  let primary : List String :=
    if contentType = "learning" then
      if difficulty = "easy" ∨ difficulty = "medium" then ["learning_energetic"]
      else ["learning_focused"]
    else if contentType = "professional" then
      if emotion = "happy" ∨ emotion = "excited" then ["professional_positive"]
      else ["professional_minimal"]
    else if contentType = "narrative" ∨ contentType = "creative" ∨
        contentType = "entertainment" then
      if emotion = "happy" ∨ emotion = "excited" then ["emotional_vibrant"]
      else if emotion = "calm" ∨ emotion = "neutral" then ["emotional_serene"]
      else ["emotional_vibrant"]
    else []
  let fallbacks : List String :=
    if contentType = "learning" then ["learning_focused", "learning_energetic"]
    else if contentType = "professional" then
      ["professional_minimal", "professional_positive"]
    else ["emotional_serene", "emotional_vibrant"]
  (uniqueLoaded loaded [] (primary ++ fallbacks)).take 3

/-- Embeds `ThemeGenerator._get_predefined_theme`: first recommendation,
looked up in the loaded store (the filter in `find_themes_for_profile`
guarantees the lookup succeeds when the list is nonempty). -/
def getPredefinedTheme (loaded : List (String × ThemeConfig))
    (p : ContentProfile) : Option ThemeConfig :=
  match findThemesForProfile loaded (emotionValue p.emotion)
      (contentTypeValue p.content_type) (difficultyValue p.difficulty) with
  | [] => none
  | n :: _ => lookupA loaded n

/-- Embeds `ThemeGenerator.generate_theme` as a state transformer on the
theme cache.  On the predefined path the source appends the template type
to the shared theme object's compatibility list in place; the model
performs the equivalent functional update on the returned and cached
config. -/
def generateTheme (loaded : List (String × ThemeConfig)) (p : ContentProfile)
    (templateType : String) (cache : ThemeCache) : ThemeConfig × ThemeCache :=
  let key := themeCacheKey p templateType
  match lookupA cache key with
  | some cfg => (cfg, cache)
  | none =>
    match getPredefinedTheme loaded p with
    | some thm =>
      let thm₂ :=
        if templateType ∈ thm.compatibility then thm
        else { thm with compatibility := thm.compatibility ++ [templateType] }
      (thm₂, (key, thm₂) :: cache)
    | none =>
      let cfg : ThemeConfig :=
        { name := generateThemeName p
          description := generateThemeDescription p
          colors := generateColorScheme p
          effects := generateVisualEffects p templateType
          typography := generateTypography p
          compatibility := [templateType] }
      (cfg, (key, cfg) :: cache)

/-- Pydantic guarantee on the loaded store: every loaded theme's colors
match `#RRGGBB` (enforced by the `ColorScheme` field patterns when
`ThemeLoader` constructs the configs). -/
def themesValid (loaded : List (String × ThemeConfig)) : Bool :=
  loaded.all (fun p => validColorScheme p.2.colors)

/-- Invariant of the theme cache: every entry was stored under a key whose
template-type component sits in its compatibility list, and has valid
colors. -/
def themeCacheWF (cache : ThemeCache) : Bool :=
  cache.all (fun p =>
    decide (p.1.2.2.2.1 ∈ p.2.compatibility) && validColorScheme p.2.colors)

/-! ## Definitions modelled from the spec, for refinement comparison -/

/-- Modelled from the spec: the distribution as §4.1 step 6 claims it —
steps 1 through 4 *including* the sentiment adjustment of step 4 — then
L1-normalized over the full enumeration, all-zero otherwise.  Compared
against the source's `getEmotionDistribution`, which omits the sentiment
adjustment. -/
def getEmotionDistributionWithSentiment (text : String) : EmotionType → ℚ :=
  if isBlank text then fun _ => 0
  else
    let words := detectorWords text
    let s₁ := applyIntensityModifiers words (calcEmotionScores words)
    let s₂ := fun e => s₁ e * sentimentBoost text e
    let total := (allEmotions.map s₂).sum
    if 0 < total then fun e => s₂ e / total else fun _ => 0

/-- Modelled from the spec (amended reading): the distribution applies
steps 1–3 only — keyword scores and intensity modifiers, no sentiment
adjustment — and L1-normalizes over the full enumeration, with missing
emotions filled with 0 and the all-zero map otherwise. -/
def distributionSpecNoSentiment (text : String) : EmotionType → ℚ :=
  if isBlank text then fun _ => 0
  else
    let raw := rawEmotionScores text
    let total := (allEmotions.map raw).sum
    if 0 < total then fun e => raw e / total else fun _ => 0

/-! ## General helper lemmas -/

theorem lookupA_mem {α β : Type} [DecidableEq α] :
    ∀ (l : List (α × β)) (k : α) (v : β), lookupA l k = some v → (k, v) ∈ l := by
  intro l
  induction l with
  | nil => intro k v h; simp [lookupA] at h
  | cons p rest ih =>
    intro k v h
    obtain ⟨k₀, v₀⟩ := p
    by_cases hk : k₀ = k
    · subst hk
      simp [lookupA] at h
      simp [h]
    · simp [lookupA, hk] at h
      exact List.mem_cons_of_mem _ (ih k v h)

theorem foldl_preserve {α β : Type} (P : β → Prop) (f : β → α → β)
    (hf : ∀ b a, P b → P (f b a)) :
    ∀ (l : List α) (b : β), P b → P (l.foldl f b) := by
  intro l
  induction l with
  | nil => intro b hb; exact hb
  | cons x xs ih => intro b hb; exact ih _ (hf b x hb)

theorem foldl_argmax_mem {α : Type} (s : α → ℚ) :
    ∀ (l : List α) (b : α),
      l.foldl (fun best e => if s best < s e then e else best) b ∈ b :: l := by
  intro l
  induction l with
  | nil => intro b; simp
  | cons x xs ih =>
    intro b
    simp only [List.foldl_cons]
    rcases List.mem_cons.mp (ih (if s b < s x then x else b)) with h | h
    · rw [h]
      by_cases hc : s b < s x <;> simp [hc]
    · simp [List.mem_cons_of_mem, h]

theorem list_sum_div (c : ℚ) : ∀ l : List ℚ, (l.map (fun x => x / c)).sum = l.sum / c := by
  intro l
  induction l with
  | nil => simp
  | cons x xs ih => simp [ih, add_div]

/-! ## Lemmas about the emotion detector -/

theorem wordEmotionScore_nonneg (w : String) (e : EmotionType) :
    0 ≤ wordEmotionScore w e := by
  unfold wordEmotionScore
  split_ifs <;> norm_num

theorem calcEmotionScores_nonneg (words : List String) (e : EmotionType) :
    0 ≤ calcEmotionScores words e := by
  unfold calcEmotionScores
  refine List.sum_nonneg ?_
  intro x hx
  obtain ⟨w, _, rfl⟩ := List.mem_map.mp hx
  exact wordEmotionScore_nonneg w e

theorem modifierValue_pos (w : String) (m : ℚ) (h : modifierValue w = some m) :
    0 < m := by
  have hmem := lookupA_mem _ _ _ h
  have hall : ∀ p ∈ intensityModifierTable, 0 < p.2 := by
    intro p hp
    fin_cases hp <;> norm_num
  exact hall (w, m) hmem

theorem boostWord_nonneg (m : ℚ) (hm : 0 ≤ m) (w : String) (sc : EmotionType → ℚ)
    (h : ∀ e, 0 ≤ sc e) : ∀ e, 0 ≤ boostWord m w sc e := by
  intro e
  unfold boostWord
  split_ifs
  · exact mul_nonneg hm (h e)
  · exact h e

theorem boostWord_neutral (m : ℚ) (w : String) (sc : EmotionType → ℚ) :
    boostWord m w sc .neutral = sc .neutral := by
  unfold boostWord
  simp [emotionKeywords]

theorem applyIntensityModifiers_nonneg (words : List String) (sc : EmotionType → ℚ)
    (h : ∀ e, 0 ≤ sc e) : ∀ e, 0 ≤ applyIntensityModifiers words sc e := by
  unfold applyIntensityModifiers
  refine foldl_preserve (fun sc => ∀ e, 0 ≤ sc e) _ ?_ _ sc h
  intro b i hb
  cases hm : modifierValue (words.getD i "") with
  | none => simpa [hm] using hb
  | some m =>
    simp only [hm]
    refine foldl_preserve (fun sc => ∀ e, 0 ≤ sc e) _ ?_ _ b hb
    intro b' j hb'
    exact boostWord_nonneg m (le_of_lt (modifierValue_pos _ _ hm)) _ _ hb'

theorem applyIntensityModifiers_neutral (words : List String) (sc : EmotionType → ℚ)
    (h : sc .neutral = 0) : applyIntensityModifiers words sc .neutral = 0 := by
  unfold applyIntensityModifiers
  refine foldl_preserve (fun sc => sc EmotionType.neutral = 0) _ ?_ _ sc h
  intro b i hb
  cases hm : modifierValue (words.getD i "") with
  | none => simpa [hm] using hb
  | some m =>
    simp only [hm]
    refine foldl_preserve (fun sc => sc EmotionType.neutral = 0) _ ?_ _ b hb
    intro b' j hb'
    rw [boostWord_neutral]
    exact hb'

theorem calcEmotionScores_neutral (words : List String) :
    calcEmotionScores words .neutral = 0 := by
  unfold calcEmotionScores
  have : ∀ w : String, wordEmotionScore w .neutral = 0 := by
    intro w
    unfold wordEmotionScore
    simp [emotionKeywords]
  simp [this]

/-- The unnormalized distribution scores are nonnegative. -/
theorem rawEmotionScores_nonneg (text : String) (e : EmotionType) :
    0 ≤ rawEmotionScores text e := by
  unfold rawEmotionScores
  split_ifs
  · exact le_refl 0
  · exact applyIntensityModifiers_nonneg _ _ (calcEmotionScores_nonneg _) e

/-- The unnormalized score of `neutral` is always zero (no keyword entry). -/
theorem rawEmotionScores_neutral (text : String) :
    rawEmotionScores text .neutral = 0 := by
  unfold rawEmotionScores
  split_ifs
  · rfl
  · exact applyIntensityModifiers_neutral _ _ (calcEmotionScores_neutral _)

theorem argmaxEmotion_mem (s : EmotionType → ℚ) :
    argmaxEmotion s ∈ scoringEmotions := by
  have h := foldl_argmax_mem s scoringEmotions .happy
  unfold argmaxEmotion
  rcases List.mem_cons.mp h with h | h
  · rw [h]; decide
  · exact h

theorem argmaxContent_mem (s : ContentType → ℚ) :
    argmaxContent s ∈ contentTypesList := by
  have h := foldl_argmax_mem s contentTypesList .learning
  unfold argmaxContent
  rcases List.mem_cons.mp h with h | h
  · rw [h]; decide
  · exact h

theorem ratio_bounds (pos neg n : ℕ) (hp : pos ≤ n) (hn : neg ≤ n)
    (h0 : 0 < n) :
    -1 ≤ ((pos : ℚ) - (neg : ℚ)) / (n : ℚ) ∧
    ((pos : ℚ) - (neg : ℚ)) / (n : ℚ) ≤ 1 := by
  have hnQ : (0 : ℚ) < (n : ℚ) := by exact_mod_cast h0
  have hpQ : (pos : ℚ) ≤ (n : ℚ) := by exact_mod_cast hp
  have hnegQ : (neg : ℚ) ≤ (n : ℚ) := by exact_mod_cast hn
  have hp0 : (0 : ℚ) ≤ (pos : ℚ) := by positivity
  have hn0 : (0 : ℚ) ≤ (neg : ℚ) := by positivity
  constructor
  · rw [le_div_iff₀ hnQ]
    linarith
  · rw [div_le_one hnQ]
    linarith

theorem fallbackPolarity_bounds (text : String) :
    -1 ≤ fallbackPolarity text ∧ fallbackPolarity text ≤ 1 := by
  unfold fallbackPolarity
  dsimp only
  split_ifs with h
  · norm_num
  · refine ratio_bounds _ _ _ (List.length_filter_le _ _)
      (List.length_filter_le _ _) ?_
    rcases Nat.eq_zero_or_pos (pySplit (pyLower text)).length with h0 | h0
    · exfalso
      apply h
      have hnil := List.length_eq_zero.mp h0
      rw [hnil]
      simp
    · exact h0

theorem fallbackSubjectivity_bounds (text : String) :
    0 ≤ fallbackSubjectivity text ∧ fallbackSubjectivity text ≤ 1 := by
  unfold fallbackSubjectivity
  dsimp only
  split_ifs with h
  · norm_num
  · exact ⟨le_min (by positivity) (by norm_num), min_le_right _ _⟩

theorem boostBase_nonneg (p : ℚ) (hp1 : -1 ≤ p) (hp2 : p ≤ 1) (e : EmotionType) :
    0 ≤ boostBase p e := by
  have habs : |p| ≤ 1 := abs_le.mpr ⟨hp1, hp2⟩
  have habs0 : 0 ≤ |p| := abs_nonneg p
  unfold boostBase
  cases e <;> split_ifs <;> nlinarith

/-- Every sentiment-boost multiplier is nonnegative (in fact at least
one half). -/
theorem sentimentBoost_nonneg (text : String) (e : EmotionType) :
    0 ≤ sentimentBoost text e := by
  obtain ⟨hp1, hp2⟩ := fallbackPolarity_bounds text
  obtain ⟨hs1, hs2⟩ := fallbackSubjectivity_bounds text
  have hb := boostBase_nonneg (fallbackPolarity text) hp1 hp2 e
  unfold sentimentBoost
  split_ifs with h
  · refine mul_nonneg hb ?_
    linarith
  · exact hb

/-! ## C3, C9, C5, C10, C6, C7 -/

/-- **C3**: empty or whitespace-only input yields exactly
`(neutral, 0.0)` from `detect_emotion` and `(professional, 0.0)` from
`classify_content`; both operations are total functions of the text, so
neither raises. -/
theorem blank_input_defaults (text : String) (h : isBlank text = true) :
    detectEmotion text = (.neutral, 0) ∧
    classifyContent text = (.professional, 0) := by
  unfold detectEmotion classifyContent
  rw [if_pos h, if_pos h]
  exact ⟨rfl, rfl⟩

/-- Witness for **C3** at the empty string. -/
theorem blank_input_defaults_witness :
    isBlank "" = true ∧
    detectEmotion "" = (.neutral, 0) ∧
    classifyContent "" = (.professional, 0) :=
  ⟨by decide, blank_input_defaults "" (by decide)⟩

/-- **C9**: with `use_cache=False`, `analyze` neither reads nor writes the
cache: the result is the pure computation (independent of the cache
contents) and the cache state — hence `cache_stats` — is unchanged. -/
theorem analyze_no_cache_frame (text : String) (cache : AnalysisCache) :
    analyze text false cache = (computeAnalysis text, cache) ∧
    cacheStats (analyze text false cache).2 = cacheStats cache := by
  unfold analyze
  exact ⟨rfl, rfl⟩

/-- **C5**: with caching enabled, a repeated `analyze` of the same text
returns the identical stored result (all modelled fields — `profile`,
`word_count`, `character_count`, `sentences`, `keywords` — equal; the
unmodelled `processing_time` is the one field the source refreshes), and
the second call is served from the cache entry stored under the
byte-identical text key. -/
theorem analyze_cached_idempotent (text : String) (cache : AnalysisCache) :
    (analyze text true ((analyze text true cache).2)).1 =
      (analyze text true cache).1 ∧
    lookupA ((analyze text true cache).2) text =
      some ((analyze text true cache).1) := by
  unfold analyze
  cases h : lookupA cache text with
  | some r => simp [h]
  | none => simp [h, lookupA]

/-- **C10**: `detect_emotion` returns `neutral` only with intensity
exactly `0.0`; equivalently a nonzero intensity forces a non-neutral
emotion, because the arg-max ranges over the keyword table, which has no
`neutral` entry. -/
theorem detect_neutral_only_zero (text : String) :
    ((detectEmotion text).1 = .neutral → (detectEmotion text).2 = 0) ∧
    ((detectEmotion text).2 ≠ 0 → (detectEmotion text).1 ≠ .neutral) := by
  have hmem := argmaxEmotion_mem
    (fun e => applyIntensityModifiers (detectorWords text)
      (calcEmotionScores (detectorWords text)) e * sentimentBoost text e)
  have hnn : argmaxEmotion
      (fun e => applyIntensityModifiers (detectorWords text)
        (calcEmotionScores (detectorWords text)) e * sentimentBoost text e) ≠
      EmotionType.neutral := by
    intro hn
    rw [hn] at hmem
    exact absurd hmem (by decide)
  unfold detectEmotion
  dsimp only
  split_ifs with h1 h2 h3
  · exact ⟨fun _ => rfl, fun h => absurd rfl h⟩
  · exact ⟨fun _ => rfl, fun h => absurd rfl h⟩
  · exact ⟨fun _ => rfl, fun h => absurd rfl h⟩
  · exact ⟨fun hn => absurd hn hnn, fun _ hn => absurd hn hnn⟩

set_option maxRecDepth 1000000 in
/-- Witness for **C10** at `"happy"`, where the intensity is nonzero. -/
theorem detect_neutral_only_zero_witness :
    (detectEmotion "happy").2 ≠ 0 ∧ (detectEmotion "happy").1 ≠ .neutral :=
  ⟨by with_unfolding_all decide,
   (detect_neutral_only_zero "happy").2 (by with_unfolding_all decide)⟩

/-- **C6, counterexample**: the claim says difficulty `expert` yields the
`_sophisticated` suffix for every emotion; at emotion `happy` the emotion
branch returns first and the difficulty suffix never applies. -/
theorem recommendedTheme_difficulty_not_universal :
    determineRecommendedTheme .happy .learning .expert = "learning_energetic" ∧
    determineRecommendedTheme .happy .learning .expert ≠
      baseThemeName .learning ++ "_sophisticated" := by
  constructor
  · rfl
  · decide

/-- **C6, amended**: the difficulty suffix (`expert` → `_sophisticated`,
`easy` → `_accessible`, otherwise the bare base theme) applies exactly for
the emotions outside the three emotion groups — `angry` and `surprised` —
while for every other emotion the early-returning emotion branch makes the
result independent of difficulty, so the two suffixes are mutually
exclusive with the emotion suffix taking precedence.  -/
theorem recommendedTheme_difficulty_suffix (e : EmotionType) (ct : ContentType) :
    ((e = .angry ∨ e = .surprised) →
      determineRecommendedTheme e ct .expert =
        baseThemeName ct ++ "_sophisticated" ∧
      determineRecommendedTheme e ct .easy =
        baseThemeName ct ++ "_accessible" ∧
      determineRecommendedTheme e ct .medium = baseThemeName ct ∧
      determineRecommendedTheme e ct .hard = baseThemeName ct) ∧
    (¬(e = .angry ∨ e = .surprised) →
      ∀ d₁ d₂ : DifficultyLevel,
        determineRecommendedTheme e ct d₁ = determineRecommendedTheme e ct d₂) := by
  constructor
  · rintro (rfl | rfl) <;> cases ct <;>
      exact ⟨by decide, by decide, by decide, by decide⟩
  · intro hne d₁ d₂
    cases e <;>
      first
      | exact absurd (Or.inl rfl) hne
      | exact absurd (Or.inr rfl) hne
      | (cases ct <;> cases d₁ <;> cases d₂ <;> decide)

/-- Witness for **C6 (amended)** at `angry`/`learning`. -/
theorem recommendedTheme_difficulty_suffix_witness :
    determineRecommendedTheme .angry .learning .expert =
      baseThemeName .learning ++ "_sophisticated" :=
  (((recommendedTheme_difficulty_suffix .angry .learning).1) (Or.inl rfl)).1

/-- A computed analysis result carries the input text. -/
theorem computeAnalysis_text (text : String) : (computeAnalysis text).text = text :=
  rfl

/-- One `analyze` call returns a result for its own text and preserves the
cache well-formedness invariant. -/
theorem analyze_text_wf (text : String) (u : Bool) (cache : AnalysisCache)
    (h : cacheWF cache = true) :
    (analyze text u cache).1.text = text ∧
    cacheWF (analyze text u cache).2 = true := by
  unfold analyze
  cases u with
  | false => exact ⟨rfl, h⟩
  | true =>
    simp only [if_true]
    cases hl : lookupA cache text with
    | some r =>
      constructor
      · have hmem := lookupA_mem _ _ _ hl
        have hall := List.all_eq_true.mp h _ hmem
        simpa using hall
      · exact h
    | none =>
      constructor
      · rfl
      · unfold cacheWF
        rw [List.all_cons]
        refine (Bool.and_eq_true _ _).mpr ⟨by simp [computeAnalysis_text], h⟩

/-- **C7**: `analyze_batch` returns one result per input, in input order:
the i-th result's `text` is the i-th input. -/
theorem analyzeBatch_order (texts : List String) (u : Bool) :
    ∀ (cache : AnalysisCache), cacheWF cache = true →
      (analyzeBatch texts u cache).1.length = texts.length ∧
      cacheWF (analyzeBatch texts u cache).2 = true ∧
      ∀ i, i < texts.length →
        ((analyzeBatch texts u cache).1.getD i default).text =
          texts.getD i "" := by
  induction texts with
  | nil =>
    intro cache h
    exact ⟨rfl, h, fun i hi => absurd hi (Nat.not_lt_zero i)⟩
  | cons t ts ih =>
    intro cache h
    obtain ⟨ht, hwf⟩ := analyze_text_wf t u cache h
    obtain ⟨hlen, hwf2, hidx⟩ := ih ((analyze t u cache).2) hwf
    refine ⟨by simpa [analyzeBatch] using hlen, by simpa [analyzeBatch] using hwf2, ?_⟩
    intro i hi
    cases i with
    | zero => simpa [analyzeBatch] using ht
    | succ j =>
      have hj : j < ts.length := Nat.lt_of_succ_lt_succ hi
      simpa [analyzeBatch] using hidx j hj

/-- Sum of seven nonnegative scores is nonpositive only when every score
(including the always-zero `neutral`) vanishes. -/
theorem emotionScores_all_zero (s : EmotionType → ℚ) (hnn : ∀ e, 0 ≤ s e)
    (ht : totalEmotionScore s ≤ 0) (hz : s .neutral = 0) : ∀ e, s e = 0 := by
  have hmem : ∀ e ∈ scoringEmotions, s e = 0 := by
    intro e he
    have hle : s e ≤ totalEmotionScore s := by
      have h1 := List.single_le_sum (l := scoringEmotions.map s)
        (fun x hx => by
          obtain ⟨e', _, rfl⟩ := List.mem_map.mp hx
          exact hnn e') (s e) (List.mem_map_of_mem s he)
      simpa [totalEmotionScore] using h1
    exact le_antisymm (le_trans hle ht) (hnn e)
  intro e
  cases e <;> first
    | exact hz
    | exact hmem _ (by decide)

/-- **C1**: the emotion distribution (a total map on the enumeration) sums
to exactly 1 whenever some raw (steps 1–3) score is nonzero, and is
identically 0 when every raw score is zero — in particular for blank
input, whose raw scores are all zero. -/
theorem emotionDistribution_sum (text : String) :
    ((∃ e, rawEmotionScores text e ≠ 0) →
      (allEmotions.map (getEmotionDistribution text)).sum = 1) ∧
    ((∀ e, rawEmotionScores text e = 0) →
      ∀ e, getEmotionDistribution text e = 0) := by
  by_cases hb : isBlank text = true
  · constructor
    · rintro ⟨e, he⟩
      exact absurd (by simp [rawEmotionScores, hb]) he
    · intro _ e
      simp [getEmotionDistribution, hb]
  · have hb' : isBlank text = false := by simpa using hb
    set s := applyIntensityModifiers (detectorWords text)
      (calcEmotionScores (detectorWords text)) with hs
    have hnn : ∀ e, 0 ≤ s e :=
      applyIntensityModifiers_nonneg _ _ (calcEmotionScores_nonneg _)
    have hz : s .neutral = 0 :=
      applyIntensityModifiers_neutral _ _ (calcEmotionScores_neutral _)
    have hraw : ∀ e, rawEmotionScores text e = s e := by
      intro e
      simp [rawEmotionScores, hb', ← hs]
    by_cases ht : 0 < totalEmotionScore s
    · have hdist : ∀ e, getEmotionDistribution text e = s e / totalEmotionScore s := by
        intro e
        simp [getEmotionDistribution, hb', ← hs, ht]
      constructor
      · intro _
        have hTne : totalEmotionScore s ≠ 0 := ne_of_gt ht
        have hT : s .happy + s .sad + s .excited + s .calm + s .angry +
            s .fearful + s .surprised = totalEmotionScore s := by
          simp [totalEmotionScore, scoringEmotions]
          ring
        simp only [allEmotions, scoringEmotions, List.map_append,
          List.map_cons, List.map_nil, List.sum_append, List.sum_cons,
          List.sum_nil, hdist, hz, zero_div, add_zero]
        rw [div_add_div_same, div_add_div_same, div_add_div_same,
          div_add_div_same, div_add_div_same, div_add_div_same]
        rw [div_eq_one_iff_eq hTne]
        linarith [hT]
      · intro hall
        exfalso
        have hall' : ∀ e, s e = 0 := fun e => (hraw e) ▸ hall e
        have : totalEmotionScore s = 0 := by
          simp [totalEmotionScore, scoringEmotions, hall']
        exact absurd (this ▸ ht) (lt_irrefl 0)
    · push_neg at ht
      have hall0 : ∀ e, s e = 0 := emotionScores_all_zero s hnn ht hz
      have hdist : ∀ e, getEmotionDistribution text e = s e := by
        intro e
        simp [getEmotionDistribution, hb', ← hs, not_lt.mpr ht]
      constructor
      · rintro ⟨e, he⟩
        exact absurd ((hraw e).trans (hall0 e)) he
      · intro _ e
        rw [hdist e]
        exact hall0 e

set_option maxRecDepth 1000000 in
/-- Witness for **C1**: a text with a nonzero raw score whose distribution
sums to 1, and a punctuation-only (all-zero raw scores) text whose
distribution is zero. -/
theorem emotionDistribution_sum_witness :
    (allEmotions.map (getEmotionDistribution "happy day")).sum = 1 ∧
    getEmotionDistribution "!!" EmotionType.happy = 0 :=
  ⟨(emotionDistribution_sum "happy day").1
      ⟨EmotionType.happy, by with_unfolding_all decide⟩,
   (emotionDistribution_sum "!!").2
      (by intro e; cases e <;> with_unfolding_all decide) EmotionType.happy⟩

set_option maxRecDepth 1000000 in
/-- **C2, counterexample**: the distribution computed by the source omits
the step-4 sentiment adjustment; on `"happy love"` (positive polarity,
high subjectivity) the claimed steps-1–4 normalization yields a different
value at `happy` (4/5 versus 60/67). -/
theorem distribution_omits_sentiment_step :
    getEmotionDistribution "happy love" EmotionType.happy = 4/5 ∧
    getEmotionDistributionWithSentiment "happy love" EmotionType.happy = 60/67 ∧
    getEmotionDistribution "happy love" EmotionType.happy ≠
      getEmotionDistributionWithSentiment "happy love" EmotionType.happy := by
  refine ⟨?_, ?_, ?_⟩ <;> with_unfolding_all decide

/-- **C2, amended**: for every text the distribution equals the
L1-normalization over the full enumeration of the steps 1–3 scores —
keyword matching, fuzzy partial credit, and intensity modifiers, but *no*
sentiment adjustment; only `detect_emotion` applies step 4. -/
theorem distribution_eq_steps123 (text : String) (e : EmotionType) :
    getEmotionDistribution text e = distributionSpecNoSentiment text e := by
  by_cases hb : isBlank text = true
  · simp [getEmotionDistribution, distributionSpecNoSentiment, hb]
  · have hb' : isBlank text = false := by simpa using hb
    set s := applyIntensityModifiers (detectorWords text)
      (calcEmotionScores (detectorWords text)) with hs
    have hnn : ∀ e, 0 ≤ s e :=
      applyIntensityModifiers_nonneg _ _ (calcEmotionScores_nonneg _)
    have hz : s .neutral = 0 :=
      applyIntensityModifiers_neutral _ _ (calcEmotionScores_neutral _)
    have hraw : ∀ e, rawEmotionScores text e = s e := by
      intro e
      simp [rawEmotionScores, hb', ← hs]
    have htot8 : (allEmotions.map (rawEmotionScores text)).sum =
        totalEmotionScore s := by
      simp only [allEmotions, scoringEmotions, List.map_append, List.map_cons,
        List.map_nil, List.sum_append, List.sum_cons, List.sum_nil, hraw, hz]
      simp [totalEmotionScore, scoringEmotions]
    by_cases ht : 0 < totalEmotionScore s
    · simp [getEmotionDistribution, distributionSpecNoSentiment, hb', ← hs,
        htot8, ht, hraw]
    · have hall0 : ∀ e, s e = 0 :=
        emotionScores_all_zero s hnn (not_lt.mp ht) hz
      simp [getEmotionDistribution, distributionSpecNoSentiment, hb', ← hs,
        htot8, ht, hall0]

theorem calcContentScores_nonneg (text : String) (ct : ContentType) :
    0 ≤ calcContentScores text ct := by
  unfold calcContentScores
  positivity

theorem itePos {c : Prop} [Decidable c] {a b : ℚ} (ha : 0 < a) (hb : 0 < b) :
    0 < if c then a else b := by
  split_ifs <;> assumption

theorem structuralBoost_pos (text : String) (ct : ContentType) :
    0 < structuralBoost text ct := by
  unfold structuralBoost
  cases ct <;> (repeat' refine mul_pos ?_ ?_) <;>
    exact itePos (by norm_num) (by norm_num)

theorem boostedContentScores_nonneg (text : String) (ct : ContentType) :
    0 ≤ boostedContentScores text ct :=
  mul_nonneg (calcContentScores_nonneg text ct)
    (le_of_lt (structuralBoost_pos text ct))

theorem boostedScore_le_total (text : String) (ct : ContentType)
    (h : ct ∈ contentTypesList) :
    boostedContentScores text ct ≤ totalContentScore (boostedContentScores text) := by
  have h1 := List.single_le_sum
    (l := contentTypesList.map (boostedContentScores text))
    (fun x hx => by
      obtain ⟨ct', _, rfl⟩ := List.mem_map.mp hx
      exact boostedContentScores_nonneg text ct')
    (boostedContentScores text ct) (List.mem_map_of_mem _ h)
  simpa [totalContentScore] using h1

theorem detectEmotion_intensity_bounds (text : String) :
    0 ≤ (detectEmotion text).2 ∧ (detectEmotion text).2 ≤ 1 := by
  unfold detectEmotion
  dsimp only
  split_ifs with h1 h2 h3
  · norm_num
  · norm_num
  · norm_num
  · constructor
    · refine le_min ?_ (by norm_num)
      refine div_nonneg ?_ (by positivity)
      exact mul_nonneg
        (applyIntensityModifiers_nonneg _ _ (calcEmotionScores_nonneg _) _)
        (sentimentBoost_nonneg _ _)
    · exact min_le_right _ _

theorem classifyContent_confidence_bounds (text : String) :
    0 ≤ (classifyContent text).2 ∧ (classifyContent text).2 ≤ 1 := by
  unfold classifyContent
  dsimp only
  split_ifs with h1 h2 h3
  · norm_num
  · norm_num
  · constructor
    · exact div_nonneg (boostedContentScores_nonneg _ _) (le_of_lt h3)
    · rw [div_le_one h3]
      exact boostedScore_le_total _ _ (argmaxContent_mem _)
  · norm_num

theorem estimateReadingSpeed_pos (text : String) (ct : ContentType) :
    0 < estimateReadingSpeed text ct := by
  cases ct <;> norm_num [estimateReadingSpeed, speedModifier]

/-- **C4**: emotion intensity and classification confidence always lie in
`[0, 1]`, and the reading speed — 250 wpm times the fixed per-content-type
modifier, as stored in the analyzer's profile — is strictly positive. -/
theorem intensity_confidence_speed_bounds (text : String) (ct : ContentType) :
    (0 ≤ (detectEmotion text).2 ∧ (detectEmotion text).2 ≤ 1) ∧
    (0 ≤ (classifyContent text).2 ∧ (classifyContent text).2 ≤ 1) ∧
    0 < estimateReadingSpeed text ct ∧
    0 < (computeAnalysis text).profile.reading_speed :=
  ⟨detectEmotion_intensity_bounds text,
   classifyContent_confidence_bounds text,
   estimateReadingSpeed_pos text ct,
   estimateReadingSpeed_pos text (classifyContent text).1⟩

/-! Lemmas for the theme generator (C8). -/

theorem hexDigitVal_le (c : Char) : hexDigitVal c ≤ 15 := by
  unfold hexDigitVal
  cases hf : hexValTable.find? (fun p => p.1 = c) with
  | none => simp
  | some q =>
    have hmem := List.mem_of_find?_eq_some hf
    have hall : ∀ r ∈ hexValTable, r.2 ≤ 15 := by decide
    simpa using hall q hmem

theorem hexPairVal_le (c₁ c₂ : Char) : hexPairVal c₁ c₂ ≤ 255 := by
  unfold hexPairVal
  have h1 := hexDigitVal_le c₁
  have h2 := hexDigitVal_le c₂
  omega

theorem isHexDigitChar_hexCharOf (n : ℕ) :
    isHexDigitChar (hexCharOf n) = true := by
  unfold hexCharOf
  have h : n % 16 < 16 := Nat.mod_lt _ (by norm_num)
  have key : ∀ m, m < 16 → isHexDigitChar
      (if m < 10 then Char.ofNat (48 + m) else Char.ofNat (87 + m)) = true := by
    decide
  exact key _ h

theorem isHexColor_rgbToHex (r g b : ℕ) :
    isHexColor (rgbToHex r g b) = true := by
  unfold rgbToHex isHexColor
  simp [isHexDigitChar_hexCharOf]

theorem isHexColor_blendHex (c₁ c₂ : String) :
    isHexColor (blendHex c₁ c₂) = true := by
  unfold blendHex
  exact isHexColor_rgbToHex _ _ _

theorem validColorScheme_blendScheme (c₁ c₂ : ColorScheme) :
    validColorScheme (blendScheme c₁ c₂) = true := by
  unfold validColorScheme blendScheme
  simp [isHexColor_blendHex]

theorem emotionColors_valid (e : EmotionType) :
    validColorScheme (emotionColors e) = true := by
  cases e <;> decide

theorem basePalettes_valid :
    ∀ q ∈ baseColorPalettes, validColorScheme q.2 = true := by
  decide

theorem generateColorsFromProfile_valid (p : ContentProfile) :
    validColorScheme (generateColorsFromProfile p) = true := by
  unfold generateColorsFromProfile
  split_ifs
  · exact validColorScheme_blendScheme _ _
  · exact validColorScheme_blendScheme _ _
  · exact emotionColors_valid _

theorem generateColorScheme_valid (p : ContentProfile) :
    validColorScheme (generateColorScheme p) = true := by
  unfold generateColorScheme
  cases hl : lookupA baseColorPalettes p.recommended_theme with
  | some base => exact basePalettes_valid _ (lookupA_mem _ _ _ hl)
  | none => exact generateColorsFromProfile_valid p

theorem getPredefinedTheme_valid (loaded : List (String × ThemeConfig))
    (p : ContentProfile) (thm : ThemeConfig)
    (hv : themesValid loaded = true)
    (h : getPredefinedTheme loaded p = some thm) :
    validColorScheme thm.colors = true := by
  unfold getPredefinedTheme at h
  rcases hfind : findThemesForProfile loaded (emotionValue p.emotion)
      (contentTypeValue p.content_type) (difficultyValue p.difficulty) with
    _ | ⟨n, rest⟩
  · rw [hfind] at h
    simp at h
  · rw [hfind] at h
    have hmem := lookupA_mem _ _ _ h
    have hall := List.all_eq_true.mp hv _ hmem
    simpa using hall

/-- **C8**: for every content profile, template type, loaded theme store
(whose pydantic-validated colors are well formed) and well-formed theme
cache — so in particular on a cache hit under the
(emotion, content type, difficulty, template, rounded intensity) key —
`generate_theme` returns a config whose compatibility list contains the
requested template type and whose six colors all match `#RRGGBB`; the
cache invariant is preserved. -/
theorem generateTheme_compat_colors (loaded : List (String × ThemeConfig))
    (p : ContentProfile) (t : String) (cache : ThemeCache)
    (hv : themesValid loaded = true) (hc : themeCacheWF cache = true) :
    t ∈ (generateTheme loaded p t cache).1.compatibility ∧
    validColorScheme (generateTheme loaded p t cache).1.colors = true ∧
    themeCacheWF (generateTheme loaded p t cache).2 = true := by
  unfold generateTheme
  dsimp only
  cases hl : lookupA cache (themeCacheKey p t) with
  | some cfg =>
    have hmem := lookupA_mem _ _ _ hl
    have hall := List.all_eq_true.mp hc _ hmem
    rw [Bool.and_eq_true] at hall
    obtain ⟨h1, h2⟩ := hall
    exact ⟨of_decide_eq_true h1, h2, hc⟩
  | none =>
    cases hp : getPredefinedTheme loaded p with
    | some thm =>
      dsimp only
      have hvalid := getPredefinedTheme_valid loaded p thm hv hp
      by_cases hmem : t ∈ thm.compatibility
      · rw [if_pos hmem]
        refine ⟨hmem, hvalid, ?_⟩
        unfold themeCacheWF
        rw [List.all_cons]
        exact (Bool.and_eq_true _ _).mpr
          ⟨(Bool.and_eq_true _ _).mpr ⟨decide_eq_true hmem, hvalid⟩, hc⟩
      · rw [if_neg hmem]
        have hmem2 : t ∈ thm.compatibility ++ [t] := by simp
        refine ⟨hmem2, hvalid, ?_⟩
        unfold themeCacheWF
        rw [List.all_cons]
        exact (Bool.and_eq_true _ _).mpr
          ⟨(Bool.and_eq_true _ _).mpr ⟨decide_eq_true hmem2, hvalid⟩, hc⟩
    | none =>
      dsimp only
      have hmem3 : t ∈ [t] := by simp
      refine ⟨hmem3, generateColorScheme_valid p, ?_⟩
      unfold themeCacheWF
      rw [List.all_cons]
      exact (Bool.and_eq_true _ _).mpr
        ⟨(Bool.and_eq_true _ _).mpr
          ⟨decide_eq_true hmem3, generateColorScheme_valid p⟩, hc⟩

/-- Witness for **C8**: the spec's scenario profile (happy, learning,
medium difficulty, intensity 0.7) with the `typewriter` template, an empty
loaded store and an empty cache. -/
theorem generateTheme_compat_colors_witness :
    themesValid [] = true ∧ themeCacheWF [] = true ∧
    "typewriter" ∈ (generateTheme []
      ⟨.happy, .learning, .medium, 7/10, 200, [], "learning_energetic", 4/5⟩
      "typewriter" []).1.compatibility ∧
    validColorScheme (generateTheme []
      ⟨.happy, .learning, .medium, 7/10, 200, [], "learning_energetic", 4/5⟩
      "typewriter" []).1.colors = true :=
  ⟨rfl, rfl,
   (generateTheme_compat_colors []
      ⟨.happy, .learning, .medium, 7/10, 200, [], "learning_energetic", 4/5⟩
      "typewriter" [] rfl rfl).1,
   (generateTheme_compat_colors []
      ⟨.happy, .learning, .medium, 7/10, 200, [], "learning_energetic", 4/5⟩
      "typewriter" [] rfl rfl).2.1⟩

/-- Witness for **C7** on a concrete batch with the empty cache. -/
theorem analyzeBatch_order_witness :
    cacheWF [] = true ∧
    ((analyzeBatch ["happy day", "so sad"] true []).1.getD 0 default).text =
      "happy day" ∧
    ((analyzeBatch ["happy day", "so sad"] true []).1.getD 1 default).text =
      "so sad" :=
  ⟨rfl,
   (analyzeBatch_order ["happy day", "so sad"] true [] rfl).2.2 0 (by decide),
   (analyzeBatch_order ["happy day", "so sad"] true [] rfl).2.2 1 (by decide)⟩

end EmoDeco
